import Mathlib

/-!
Verification of the check-car bot (src/bot.py, src/config.py).

Python strings are embedded as lists of Unicode codepoints (`List Nat`);
`str` converts a Lean string literal to this representation.  The character
predicates `pyIsSpace` and `pyIsAlnum` model the Python `str.strip`
whitespace set and `str.isalnum` on the character ranges this bot encounters
(ASCII and the Cyrillic block U+0400..U+04FF); `pyUpperChar` models
`str.upper` on the same ranges.
-/

namespace CheckCar

/-- A Python string: its list of Unicode codepoints. -/
abbrev Str := List Nat

/-- Embed a Lean string literal as a `Str`. -/
def str (s : String) : Str := s.data.map Char.toNat

/-- Whitespace characters removed by the Python `str.strip` method. -/
def pyIsSpace (c : Nat) : Bool :=
  c == 0x20 || c == 0x9 || c == 0xA || c == 0xD || c == 0xB || c == 0xC

/-- Python `str.isalnum`, modelled on ASCII digits/letters and the Cyrillic
block U+0400..U+04FF (the ranges relevant to VINs and Russian plates). -/
def pyIsAlnum (c : Nat) : Bool :=
  decide ((0x30 ≤ c ∧ c ≤ 0x39) ∨ (0x41 ≤ c ∧ c ≤ 0x5A) ∨
    (0x61 ≤ c ∧ c ≤ 0x7A) ∨ (0x400 ≤ c ∧ c ≤ 0x4FF))

/-- Python `str.upper` on one character: ASCII `a-z` and Cyrillic `а-я`
are shifted down by 0x20, `ё` maps to `Ё`, everything else is unchanged. -/
def pyUpperChar (c : Nat) : Nat :=
  if 0x61 ≤ c ∧ c ≤ 0x7A then c - 0x20
  else if 0x430 ≤ c ∧ c ≤ 0x44F then c - 0x20
  else if c = 0x451 then 0x401
  else c

/-- Python `str.upper`. -/
def pyUpper (s : Str) : Str := s.map pyUpperChar

/-- Python `str.strip()`: drop leading and trailing whitespace. -/
def pyStrip (s : Str) : Str :=
  ((s.dropWhile pyIsSpace).reverse.dropWhile pyIsSpace).reverse

/-- `validate_vin` (src/bot.py:86-91): uppercase, strip, require length 17. -/
def validate_vin (vin : Str) : Bool :=
  (pyStrip (pyUpper vin)).length == 17

/-- The stripped form used by `validate_license_plate`: uppercase, then
remove every space and hyphen (src/bot.py:95). -/
def plate_strip (plate : Str) : Str :=
  (pyUpper plate).filter (fun c => !(c == 0x20 || c == 0x2D))

/-- `validate_license_plate` (src/bot.py:93-105): after stripping spaces and
hyphens and uppercasing, require length in [7,9] and all characters
alphanumeric. -/
def validate_license_plate (plate : Str) : Bool :=
  if 7 ≤ (plate_strip plate).length ∧ (plate_strip plate).length ≤ 9 then
    (plate_strip plate).all pyIsAlnum
  else false

-- basic character-level lemmas

theorem pyIsAlnum_not_space {c : Nat} (h : pyIsAlnum c = true) :
    pyIsSpace c = false := by
  simp only [pyIsAlnum, decide_eq_true_eq] at h
  simp only [pyIsSpace, Bool.or_eq_false_iff, beq_eq_false_iff_ne, ne_eq]
  omega

theorem pyUpperChar_alnum {c : Nat} (h : pyIsAlnum c = true) :
    pyIsAlnum (pyUpperChar c) = true := by
  simp only [pyIsAlnum, decide_eq_true_eq] at h ⊢
  simp only [pyUpperChar]
  split_ifs <;> omega

theorem dropWhile_eq_self_of_none {p : Nat → Bool} {s : Str}
    (h : ∀ c ∈ s, p c = false) : s.dropWhile p = s := by
  cases s with
  | nil => rfl
  | cons a t =>
    rw [List.dropWhile_cons]
    simp [h a (List.mem_cons_self a t)]

theorem pyStrip_eq_self_of_no_space {s : Str}
    (h : ∀ c ∈ s, pyIsSpace c = false) : pyStrip s = s := by
  unfold pyStrip
  rw [dropWhile_eq_self_of_none h]
  rw [dropWhile_eq_self_of_none (by intro c hc; exact h c (List.mem_reverse.mp hc))]
  exact List.reverse_reverse s

/-! ## Provider clients

Each `make_*_request` function is embedded as a function from the outcome of
its single HTTP attempt to the text block it returns.  `Http β` is the
outcome of one `requests.get` call whose JSON body parses to `β`:
`ok none` is a body that fails JSON decoding, `timeout` is
`requests.exceptions.Timeout`, `connError` is
`requests.exceptions.ConnectionError`, and `otherError` is any other
exception reaching the handler. -/

/-- Outcome of one HTTP request in the straight-line clients. -/
inductive Http (β : Type) : Type where
  | ok (body : Option β)
  | timeout
  | connError
  | otherError
deriving DecidableEq

/-- The GIBDD `history` object (fields read at src/bot.py:146-154). -/
structure GibddVehicle where
  model : Option Str
  year : Option Str
  color : Option Str
  engineVolume : Option Str
  powerHp : Option Str
  vin : Option Str
  ownershipPeriods : List Unit
deriving DecidableEq

/-- The GIBDD response body (fields read at src/bot.py:143-160). -/
structure GibddBody where
  success : Bool
  history : Option GibddVehicle
  error : Option Str
deriving DecidableEq

/-- One OSAGO policy (fields read at src/bot.py:211-214). -/
structure NsisPolicy where
  companyName : Option Str
  policySerial : Option Str
  policyNumber : Option Str
  startDate : Option Str
  endDate : Option Str
  status : Option Str
deriving DecidableEq

/-- The NSIS response body (fields read at src/bot.py:206-219). -/
structure NsisBody where
  success : Bool
  policies : List NsisPolicy
  error : Option Str
deriving DecidableEq

/-- One diagnostic card (fields read at src/bot.py:261-263). -/
structure EaistoCard where
  number : Option Str
  startDate : Option Str
  endDate : Option Str
  mileage : Option Str
deriving DecidableEq

/-- The EAISTO response body (fields read at src/bot.py:258-259). -/
structure EaistoBody where
  kbm_done : Bool
  diagnose_cards : List EaistoCard
deriving DecidableEq

/-- The `Н/Д` fallback used for absent fields. -/
def nd : Str := str "Н/Д"

/-- Decimal rendering of a number interpolated into an f-string. -/
def natToStr (n : Nat) : Str := (Nat.repr n).data.map Char.toNat

/-- The empty dict used when the `history` key is absent (src/bot.py:144):
every field lookup on it falls back to its default. -/
def gibddEmptyHistory : GibddVehicle :=
  ⟨none, none, none, none, none, none, []⟩

/-- The success block of `make_gibdd_request` (src/bot.py:145-158). -/
def renderGibddVehicle (v : GibddVehicle) : Str :=
  str "✅ **Данные ГИБДД:**\n"
    ++ str "• Марка: " ++ v.model.getD nd ++ str "\n"
    ++ str "• Год: " ++ v.year.getD nd ++ str "\n"
    ++ str "• Цвет: " ++ v.color.getD nd ++ str "\n"
    ++ str "• Объем: " ++ v.engineVolume.getD nd ++ str " см³\n"
    ++ str "• Мощность: " ++ v.powerHp.getD nd ++ str " л.с.\n"
    ++ str "• VIN: " ++ v.vin.getD nd ++ str "\n"
    ++ (if v.ownershipPeriods.isEmpty then []
        else str "• Владельцев: " ++ natToStr v.ownershipPeriods.length ++ str "\n")

/-- `make_gibdd_request` (src/bot.py:108-171), as a function of the HTTP
outcome.  A `ConnectionError` has its own handler here (line 166). -/
def make_gibdd_request (r : Http GibddBody) : Str :=
  match r with
  | .ok none => str "❌ **ГИБДД:** Неверный формат ответа от сервера"
  | .ok (some d) =>
    if d.success then renderGibddVehicle (d.history.getD gibddEmptyHistory)
    else str "❌ **ГИБДД:** " ++ d.error.getD (str "Данные не найдены")
  | .timeout => str "❌ **ГИБДД:** Таймаут запроса"
  | .connError => str "❌ **ГИБДД:** Ошибка соединения"
  | .otherError => str "❌ **ГИБДД:** Ошибка запроса"

/-- The success block of `make_nsis_request` (src/bot.py:209-215). -/
def renderNsisPolicy (p : NsisPolicy) : Str :=
  str "✅ **Данные ОСАГО:**\n"
    ++ str "• Компания: " ++ p.companyName.getD nd ++ str "\n"
    ++ str "• Полис: " ++ p.policySerial.getD [] ++ str " " ++ p.policyNumber.getD [] ++ str "\n"
    ++ str "• Период: " ++ p.startDate.getD [] ++ str " - " ++ p.endDate.getD [] ++ str "\n"
    ++ str "• Статус: " ++ p.status.getD nd ++ str "\n"

/-- `make_nsis_request` (src/bot.py:173-227).  There is no
`ConnectionError` handler: only `Timeout` (line 222) and the generic
`Exception` handler (line 225), so a connection failure lands in the
generic branch. -/
def make_nsis_request (r : Http NsisBody) : Str :=
  match r with
  | .ok none => str "❌ **ОСАГО:** Неверный формат ответа от сервера"
  | .ok (some d) =>
    if d.success then
      match d.policies with
      | p :: _ => renderNsisPolicy p
      | [] => str "❌ **ОСАГО:** Полисы не найдены"
    else str "❌ **ОСАГО:** " ++ d.error.getD (str "Данные не найдены")
  | .timeout => str "❌ **ОСАГО:** Таймаут запроса"
  | .connError => str "❌ **ОСАГО:** Ошибка запроса"
  | .otherError => str "❌ **ОСАГО:** Ошибка запроса"

/-- The success block of `make_eaisto_request` (src/bot.py:260-264). -/
def renderEaistoCard (c : EaistoCard) : Str :=
  str "✅ **Данные техосмотра:**\n"
    ++ str "• Карта: " ++ c.number.getD nd ++ str "\n"
    ++ str "• Период: " ++ c.startDate.getD [] ++ str " - " ++ c.endDate.getD [] ++ str "\n"
    ++ str "• Пробег: " ++ c.mileage.getD nd ++ str " км\n"

/-- `make_eaisto_request` (src/bot.py:229-273).  Like the NSIS client it has
no `ConnectionError` handler (only lines 268 and 271), and it renders only
when both `kbm_done` and `diagnose_cards` are truthy (line 258). -/
def make_eaisto_request (r : Http EaistoBody) : Str :=
  match r with
  | .ok none => str "❌ **Техосмотр:** Неверный формат ответа от сервера"
  | .ok (some d) =>
    if d.kbm_done then
      match d.diagnose_cards with
      | c :: _ => renderEaistoCard c
      | [] => str "❌ **Техосмотр:** Действующих диагностических карт не найдено"
    else str "❌ **Техосмотр:** Действующих диагностических карт не найдено"
  | .timeout => str "❌ **Техосмотр:** Таймаут запроса"
  | .connError => str "❌ **Техосмотр:** Ошибка запроса"
  | .otherError => str "❌ **Техосмотр:** Ошибка запроса"

/-! ## Experimental plate-mode clients and the query handler -/

/-- Outcome of one attempt inside the advanced trial-parameter loops:
either `requests.get` raised, or a response arrived with a status code and
a (possibly undecodable) JSON body. -/
inductive AdvResp (β : Type) : Type where
  | raised
  | resp (status : Nat) (body : Option β)

/-- `param_variants` (src/bot.py:287,347). -/
def param_variants : List Str :=
  [str "regnum", str "reg_number", str "number", str "plate", str "license_plate"]

/-- The plate-mode loop of `make_gibdd_request_advanced` (src/bot.py:289-331):
one GIBDD request per parameter name until a 200 response decodes with
`success`; a raised exception aborts into the generic handler (line 333).
Returns the text block and the number of GIBDD requests issued. -/
def advGibddLoop (f : Str → AdvResp GibddBody) : List Str → Str × Nat
  | [] => (str "❌ **ГИБДД:** Не удалось получить данные по гос.номеру", 0)
  | p :: rest =>
    match f p with
    | .raised => (str "❌ **ГИБДД:** Ошибка запроса", 1)
    | .resp status body =>
      if status = 200 then
        match body with
        | some d =>
          if d.success then (renderGibddVehicle (d.history.getD gibddEmptyHistory), 1)
          else ((advGibddLoop f rest).1, (advGibddLoop f rest).2 + 1)
        | none => ((advGibddLoop f rest).1, (advGibddLoop f rest).2 + 1)
      else ((advGibddLoop f rest).1, (advGibddLoop f rest).2 + 1)

/-- The plate-mode loop of `make_nsis_request_advanced` (src/bot.py:347-385):
same shape; a successful body with an empty `policies` list also falls
through to the next parameter (no `else` at line 371). -/
def advNsisLoop (f : Str → AdvResp NsisBody) : List Str → Str × Nat
  | [] => (str "❌ **ОСАГО:** Не удалось получить данные по гос.номеру", 0)
  | p :: rest =>
    match f p with
    | .raised => (str "❌ **ОСАГО:** Ошибка запроса", 1)
    | .resp status body =>
      if status = 200 then
        match body with
        | some d =>
          if d.success then
            match d.policies with
            | pol :: _ => (renderNsisPolicy pol, 1)
            | [] => ((advNsisLoop f rest).1, (advNsisLoop f rest).2 + 1)
          else ((advNsisLoop f rest).1, (advNsisLoop f rest).2 + 1)
        | none => ((advNsisLoop f rest).1, (advNsisLoop f rest).2 + 1)
      else ((advNsisLoop f rest).1, (advNsisLoop f rest).2 + 1)

/-- The two user modes stored under the `mode` key of `context.user_data`. -/
inductive Mode : Type where
  | vin
  | regnum
deriving DecidableEq

/-- `context.user_data`: empty, or holding `mode`.  No other key is ever
written by the handlers (no identifier is stored). -/
abbrev Session := Option Mode

/-- The upstream outcomes a single `process_query` run can observe. -/
structure Oracle where
  gibdd : Http GibddBody
  nsis : Http NsisBody
  eaisto : Http EaistoBody
  gibddAdv : Str → AdvResp GibddBody
  nsisAdv : Str → AdvResp NsisBody

/-- `make_gibdd_request_advanced` (src/bot.py:276-335): VIN queries delegate
to the standard client (line 284), plate queries run the trial loop. -/
def make_gibdd_request_advanced (qt : Mode) (o : Oracle) : Str × Nat :=
  match qt with
  | .vin => (make_gibdd_request o.gibdd, 1)
  | .regnum => advGibddLoop o.gibddAdv param_variants

/-- `make_nsis_request_advanced` (src/bot.py:337-389). -/
def make_nsis_request_advanced (qt : Mode) (o : Oracle) : Str × Nat :=
  match qt with
  | .vin => (make_nsis_request o.nsis, 1)
  | .regnum => advNsisLoop o.nsisAdv param_variants

/-- Result of one inbound text message: the session afterwards, the texts
sent back, and how many requests went to each provider. -/
structure StepResult where
  newSession : Session
  replies : List Str
  gibddCalls : Nat
  nsisCalls : Nat
  eaistoCalls : Nat
deriving DecidableEq

def vinFormatError : Str :=
  str "❌ Неверный формат VIN кода!\nVIN должен содержать 17 символов (буквы и цифры)\nПример: XTA111930B0134057"

def plateFormatError : Str :=
  str "❌ Неверный формат гос. номера!\nПримеры правильных форматов:\n• А123БВ777\n• Е001КХ178\n• Х123ХХ123"

def progressMsg : Str :=
  str "🔍 Запрашиваю данные...\nЭто может занять несколько секунд"

def oopsMsg : Str :=
  str "⚠️ Произошла ошибка при запросе данных. Попробуйте позже."

def consHeader : Str := str "📊 **Результаты проверки:**\n\n"
def consSep : Str := str "\n\n"
def consFooter : Str := str "➡️ Для нового запроса выберите способ проверки"

/-- `result_text` assembly (src/bot.py:466-470): header, one block per
provider separated by blank lines, then the follow-up prompt. -/
def consolidate (g n e : Str) : Str :=
  consHeader ++ g ++ consSep ++ n ++ consSep ++ e ++ consSep ++ consFooter

/-- `process_query` (src/bot.py:423-482).  `raises` selects the
last-resort `except` branch (line 474) for an unexpected exception in the
fan-out/reply; either way `context.user_data.clear()` at line 482 runs.
The early validation returns (lines 429-445) skip that clear, leaving the
mode in place. -/
def process_query (m : Mode) (text : Str) (o : Oracle) (raises : Bool) : StepResult :=
  let user_input := pyStrip text
  match m with
  | .vin =>
    if validate_vin user_input then
      let g := make_gibdd_request o.gibdd
      let n := make_nsis_request o.nsis
      let e := make_eaisto_request o.eaisto
      ⟨none, [progressMsg, if raises then oopsMsg else consolidate g n e], 1, 1, 1⟩
    else ⟨some .vin, [vinFormatError], 0, 0, 0⟩
  | .regnum =>
    if validate_license_plate user_input then
      let g := make_gibdd_request_advanced .regnum o
      let n := make_nsis_request_advanced .regnum o
      let e := make_eaisto_request o.eaisto
      ⟨none, [progressMsg, if raises then oopsMsg else consolidate g.1 n.1 e],
        g.2, n.2, 1⟩
    else ⟨some .regnum, [plateFormatError], 0, 0, 0⟩

def btnBack : Str := str "⬅️ Назад в меню"
def btnPlate : Str := str "🚗 Проверить по гос.номеру"
def btnVin : Str := str "🔍 Проверить по VIN коду"
def btnAbout : Str := str "ℹ️ О боте"

def welcomeReply : Str := str "🤖 Добро пожаловать в бот для проверки автомобилей!"
def enterPlateReply : Str := str "Введите **гос. номер** автомобиля:"
def enterVinReply : Str := str "Введите **VIN код** автомобиля (17 символов):"
def aboutReply : Str := str "ℹ️ О боте"
def useButtonsReply : Str := str "Используйте кнопки для навигации 👇"

/-- `handle_message` (src/bot.py:485-525): button texts are matched first;
otherwise a truthy `mode` routes the text to `process_query`, and with no
mode set the bot answers with the main-menu prompt. -/
def handle_message (sess : Session) (text : Str) (o : Oracle) (raises : Bool) :
    StepResult :=
  if text = btnBack then ⟨none, [welcomeReply], 0, 0, 0⟩
  else if text = btnPlate then ⟨some .regnum, [enterPlateReply], 0, 0, 0⟩
  else if text = btnVin then ⟨some .vin, [enterVinReply], 0, 0, 0⟩
  else if text = btnAbout then ⟨sess, [aboutReply], 0, 0, 0⟩
  else
    match sess with
    | some m => process_query m text o raises
    | none => ⟨none, [useButtonsReply], 0, 0, 0⟩

/-! ## Startup configuration -/

/-- The process environment: the four credentials read at src/bot.py:14-19
and src/config.py:7-10 (`none` = variable unset). -/
structure Env where
  botToken : Option Str
  gibddKey : Option Str
  nsisKey : Option Str
  eaistoKey : Option Str

/-- Python truthiness of `os.getenv(...)`: unset or empty is falsy. -/
def truthy : Option Str → Bool
  | none => false
  | some s => !s.isEmpty

/-- The only startup check executed by src/bot.py (lines 22-23): raise iff
`BOT_TOKEN` is falsy.  The provider API keys are loaded (lines 15-19) but
never checked. -/
def bot_startup (e : Env) : Except Str Unit :=
  if truthy e.botToken then .ok ()
  else .error (str "BOT_TOKEN не найден в .env файле")

/-- `Config.validate` (src/config.py:12-18): collect the falsy variables
among the four required ones and raise if any.  This classmethod is defined
but never invoked anywhere in the repository. -/
def config_validate (e : Env) : Except Str Unit :=
  let missing :=
    ([(str "BOT_TOKEN", e.botToken), (str "GIBDD_API_KEY", e.gibddKey),
      (str "NSIS_API_KEY", e.nsisKey), (str "EAISTO_API_KEY", e.eaistoKey)]).filter
      (fun v => !truthy v.2)
  if missing.isEmpty then .ok ()
  else .error (str "Отсутствуют переменные окружения: "
    ++ List.intercalate (str ", ") (missing.map (fun v => v.1)))

/-! ## Helper definitions and lemmas -/

/-- The success marker opening every success block. -/
def markOk : Nat := Char.toNat '✅'

/-- The failure marker opening every failure block. -/
def markFail : Nat := Char.toNat '❌'

/-- The outcomes of a provider call that are pure failures of the transport
or body format (no payload at all reaches the formatter). -/
def pureFailure {β : Type} (r : Http β) : Prop :=
  r = .timeout ∨ r = .connError ∨ r = .otherError ∨ r = .ok none

/-- The validation applied by `process_query` to the stripped message text
in mode `m` (src/bot.py:425-438). -/
def validInput (m : Mode) (text : Str) : Bool :=
  match m with
  | .vin => validate_vin (pyStrip text)
  | .regnum => validate_license_plate (pyStrip text)

/-- A fixed oracle: every straight-line call times out, every trial-loop
attempt yields a 500 response. -/
def sampleOracle : Oracle :=
  ⟨.timeout, .timeout, .timeout, fun _ => .resp 500 none, fun _ => .resp 500 none⟩

theorem count_consolidate_marks (g n e : Str) (c : Nat)
    (hc : c = markOk ∨ c = markFail) :
    (consolidate g n e).count c = g.count c + n.count c + e.count c := by
  have hh : consHeader.count c = 0 := by rcases hc with rfl | rfl <;> decide
  have hs : consSep.count c = 0 := by rcases hc with rfl | rfl <;> decide
  have hf : consFooter.count c = 0 := by rcases hc with rfl | rfl <;> decide
  simp only [consolidate, List.count_append, hh, hs, hf]
  omega

theorem gibdd_fail_marks {r : Http GibddBody} (h : pureFailure r) :
    (make_gibdd_request r).count markFail = 1 ∧
      (make_gibdd_request r).count markOk = 0 := by
  rcases h with rfl | rfl | rfl | rfl <;> exact ⟨by decide, by decide⟩

theorem nsis_fail_marks {r : Http NsisBody} (h : pureFailure r) :
    (make_nsis_request r).count markFail = 1 ∧
      (make_nsis_request r).count markOk = 0 := by
  rcases h with rfl | rfl | rfl | rfl <;> exact ⟨by decide, by decide⟩

theorem eaisto_fail_marks {r : Http EaistoBody} (h : pureFailure r) :
    (make_eaisto_request r).count markFail = 1 ∧
      (make_eaisto_request r).count markOk = 0 := by
  rcases h with rfl | rfl | rfl | rfl <;> exact ⟨by decide, by decide⟩

theorem advGibddLoop_pos (f : Str → AdvResp GibddBody) (p : Str)
    (rest : List Str) : 1 ≤ (advGibddLoop f (p :: rest)).2 := by
  unfold advGibddLoop
  cases f p with
  | raised => simp
  | resp status body =>
    dsimp only
    split
    · cases body with
      | none => simp
      | some d =>
        dsimp only
        split <;> simp
    · simp

theorem advNsisLoop_pos (f : Str → AdvResp NsisBody) (p : Str)
    (rest : List Str) : 1 ≤ (advNsisLoop f (p :: rest)).2 := by
  unfold advNsisLoop
  cases f p with
  | raised => simp
  | resp status body =>
    dsimp only
    split
    · cases body with
      | none => simp
      | some d =>
        dsimp only
        split
        · cases d.policies <;> simp
        · simp
    · simp

theorem process_query_clears_aux (m : Mode) (text : Str) (o : Oracle)
    (raises : Bool) (h : validInput m text = true) :
    (process_query m text o raises).newSession = none := by
  cases m <;> simp only [validInput] at h <;> simp [process_query, h]

theorem process_query_invalid_aux (m : Mode) (text : Str) (o : Oracle)
    (raises : Bool) (h : validInput m text = false) :
    process_query m text o raises =
      ⟨some m, [if m = .vin then vinFormatError else plateFormatError],
        0, 0, 0⟩ := by
  cases m <;> simp only [validInput] at h <;> simp [process_query, h]

/-! ## Claims -/

/-- C4: VIN validation uppercases and strips whitespace, and accepts exactly
when the resulting length is 17; any input whose stripped form has a
different length is rejected, and every 17-character alphanumeric string is
accepted. -/
theorem vin_validation_correct (s : Str) :
    (validate_vin s = true ↔ (pyStrip (pyUpper s)).length = 17)
    ∧ ((pyStrip (pyUpper s)).length ≠ 17 → validate_vin s = false)
    ∧ (s.length = 17 → (∀ c ∈ s, pyIsAlnum c = true) →
        validate_vin s = true) := by
  refine ⟨by simp [validate_vin], fun h => by simp [validate_vin, h],
    fun hlen halnum => ?_⟩
  have hupper : ∀ c ∈ pyUpper s, pyIsSpace c = false := by
    intro c hc
    rcases List.mem_map.mp hc with ⟨a, ha, rfl⟩
    exact pyIsAlnum_not_space (pyUpperChar_alnum (halnum a ha))
  unfold validate_vin
  rw [pyStrip_eq_self_of_no_space hupper]
  simp [pyUpper, hlen]

/-- C4 witness: applying the theorem to the valid example VIN
`Z94CB41AAGR323020` from the spec. -/
theorem vin_validation_correct_witness :
    validate_vin (str "Z94CB41AAGR323020") = true :=
  (vin_validation_correct (str "Z94CB41AAGR323020")).2.2 (by decide) (by decide)

/-- C5: plate validation accepts exactly when the form obtained by removing
spaces and hyphens and uppercasing has length in [7,9] with every character
alphanumeric (Cyrillic or Latin); stripped length outside [7,9] always
rejects, and the two example plates are accepted. -/
theorem plate_validation_correct (s : Str) :
    (validate_license_plate s = true ↔
      7 ≤ (plate_strip s).length ∧ (plate_strip s).length ≤ 9 ∧
        ∀ c ∈ plate_strip s, pyIsAlnum c = true)
    ∧ ((plate_strip s).length < 7 ∨ 9 < (plate_strip s).length →
        validate_license_plate s = false)
    ∧ validate_license_plate (str "А123БВ777") = true
    ∧ validate_license_plate (str "B908EE35") = true := by
  refine ⟨?_, fun h => ?_, by decide, by decide⟩
  · unfold validate_license_plate
    split
    case isTrue hl => simp only [List.all_eq_true]; tauto
    case isFalse hl =>
      simp only [Bool.false_eq_true, false_iff]
      tauto
  · unfold validate_license_plate
    split
    case isTrue hl => omega
    case isFalse => rfl

/-- C5 witness: the rejection clause applied to a concrete too-short plate
(stripped length 4). -/
theorem plate_validation_correct_witness :
    validate_license_plate (str "AB12") = false :=
  (plate_validation_correct (str "AB12")).2.1 (Or.inl (by decide))

/-- C7: an invalid identifier in mode `m` leaves the session in mode `m`,
sends exactly the validation error message, and issues no provider
request. -/
theorem invalid_input_keeps_mode (m : Mode) (text : Str) (o : Oracle)
    (raises : Bool) (h : validInput m text = false) :
    (process_query m text o raises).newSession = some m
    ∧ (process_query m text o raises).replies =
        [if m = .vin then vinFormatError else plateFormatError]
    ∧ (process_query m text o raises).gibddCalls = 0
    ∧ (process_query m text o raises).nsisCalls = 0
    ∧ (process_query m text o raises).eaistoCalls = 0 := by
  rw [process_query_invalid_aux m text o raises h]
  exact ⟨rfl, rfl, rfl, rfl, rfl⟩

/-- C7 witness: the theorem applied to the invalid VIN `ABC` in VIN mode. -/
theorem invalid_input_keeps_mode_witness :
    (process_query .vin (str "ABC") sampleOracle false).newSession =
      some .vin ∧
    (process_query .vin (str "ABC") sampleOracle false).gibddCalls = 0 :=
  ⟨(invalid_input_keeps_mode .vin (str "ABC") sampleOracle false
      (by decide)).1,
   (invalid_input_keeps_mode .vin (str "ABC") sampleOracle false
      (by decide)).2.2.1⟩

/-- C3 counterexample: a completed VIN-mode query on the valid VIN
`XTA111930B0134057` leaves the session empty — the mode is not retained and
no identifier is kept for follow-up detail queries, so there is no
detail-menu state after a VIN query. -/
theorem vin_query_clears_session_cx :
    (process_query .vin (str "XTA111930B0134057") sampleOracle
      false).newSession = none := by decide

/-- C3 (amended): after a completed query cycle in either mode — VIN or
plate, with or without an exception in the fan-out — the session is cleared;
no mode and no identifier are retained. -/
theorem session_cleared_after_query (m : Mode) (text : Str) (o : Oracle)
    (raises : Bool) (h : validInput m text = true) :
    (process_query m text o raises).newSession = none :=
  process_query_clears_aux m text o raises h

/-- C3 witness: the amended theorem applied to a valid plate query whose
fan-out raises. -/
theorem session_cleared_after_query_witness :
    (process_query .regnum (str "B908EE35") sampleOracle true).newSession =
      none :=
  session_cleared_after_query .regnum (str "B908EE35") sampleOracle true
    (by decide)

/-- C10: after `process_query` runs on a validated identifier — whether the
fan-out completes or raises — the session is cleared, and a following
free-form message (any text that is not one of the four menu buttons) is
answered with the main-menu prompt and triggers no provider request. -/
theorem query_clears_session_then_menu (m : Mode) (text : Str) (o : Oracle)
    (raises : Bool) (h : validInput m text = true) :
    (process_query m text o raises).newSession = none ∧
    ∀ (t : Str) (o2 : Oracle) (r2 : Bool), t ≠ btnBack → t ≠ btnPlate →
      t ≠ btnVin → t ≠ btnAbout →
      handle_message (process_query m text o raises).newSession t o2 r2 =
        ⟨none, [useButtonsReply], 0, 0, 0⟩ := by
  refine ⟨process_query_clears_aux m text o raises h, ?_⟩
  intro t o2 r2 h1 h2 h3 h4
  rw [process_query_clears_aux m text o raises h]
  simp [handle_message, h1, h2, h3, h4]

/-- C10 witness: after a VIN query that raised in the fan-out, the free-form
follow-up `привет` gets the main-menu prompt. -/
theorem query_clears_session_then_menu_witness :
    handle_message
      (process_query .vin (str "XTA111930B0134057") sampleOracle
        true).newSession
      (str "привет") sampleOracle false =
      ⟨none, [useButtonsReply], 0, 0, 0⟩ :=
  (query_clears_session_then_menu .vin (str "XTA111930B0134057")
      sampleOracle true (by decide)).2
    (str "привет") sampleOracle false (by decide) (by decide) (by decide)
    (by decide)

/-- C1 counterexample: a plate-mode query on the valid plate `B908EE35`
issues five requests to the registration-history (GIBDD) provider through
the trial-parameter client, refuting the claim that a license-plate query
never invokes that provider. -/
theorem plate_query_invokes_gibdd_cx :
    (process_query .regnum (str "B908EE35") sampleOracle
      false).gibddCalls = 5 := by decide

/-- C1 (amended): a validated VIN query invokes each of the three providers
exactly once; a validated license-plate query also reaches all three —
registration-history and insurance through the trial-parameter clients (at
least one request each) and inspection exactly once. -/
theorem providers_by_identifier_kind :
    (∀ (text : Str) (o : Oracle) (raises : Bool),
      validate_vin (pyStrip text) = true →
      (process_query .vin text o raises).gibddCalls = 1 ∧
      (process_query .vin text o raises).nsisCalls = 1 ∧
      (process_query .vin text o raises).eaistoCalls = 1)
    ∧ (∀ (text : Str) (o : Oracle) (raises : Bool),
      validate_license_plate (pyStrip text) = true →
      1 ≤ (process_query .regnum text o raises).gibddCalls ∧
      1 ≤ (process_query .regnum text o raises).nsisCalls ∧
      (process_query .regnum text o raises).eaistoCalls = 1) := by
  constructor
  · intro text o raises h
    simp [process_query, h]
  · intro text o raises h
    refine ⟨?_, ?_, ?_⟩ <;>
      simp only [process_query, h, if_true,
        make_gibdd_request_advanced, make_nsis_request_advanced]
    · exact advGibddLoop_pos o.gibddAdv _ _
    · exact advNsisLoop_pos o.nsisAdv _ _

/-- C1 witness: the amended theorem applied to the valid plate `B908EE35`,
giving exactly one inspection request. -/
theorem providers_by_identifier_kind_witness :
    (process_query .regnum (str "B908EE35") sampleOracle
      false).eaistoCalls = 1 :=
  (providers_by_identifier_kind.2 (str "B908EE35") sampleOracle false
    (by decide)).2.2

/-- C2: every queried provider contributes exactly one block to the
consolidated message, each block a function of that provider alone; with one
success and two timeouts the output carries exactly one success marker and
two failure markers, the success block unchanged by the other outcomes; and
with every provider failing the message still renders, with three failure
blocks and no success block. -/
theorem failure_isolation :
    (∀ (text : Str) (o : Oracle), validate_vin (pyStrip text) = true →
      (process_query .vin text o false).replies =
        [progressMsg,
          consolidate (make_gibdd_request o.gibdd) (make_nsis_request o.nsis)
            (make_eaisto_request o.eaisto)])
    ∧ (∀ b : GibddBody, b.success = true →
      (make_gibdd_request (.ok (some b))).count markOk = 1 →
      (make_gibdd_request (.ok (some b))).count markFail = 0 →
      (consolidate (make_gibdd_request (.ok (some b)))
        (make_nsis_request .timeout)
        (make_eaisto_request .timeout)).count markOk = 1
      ∧ (consolidate (make_gibdd_request (.ok (some b)))
        (make_nsis_request .timeout)
        (make_eaisto_request .timeout)).count markFail = 2)
    ∧ (∀ (rg : Http GibddBody) (rn : Http NsisBody) (re : Http EaistoBody),
      pureFailure rg → pureFailure rn → pureFailure re →
      (consolidate (make_gibdd_request rg) (make_nsis_request rn)
        (make_eaisto_request re)).count markFail = 3
      ∧ (consolidate (make_gibdd_request rg) (make_nsis_request rn)
        (make_eaisto_request re)).count markOk = 0) := by
  refine ⟨?_, ?_, ?_⟩
  · intro text o h
    simp [process_query, h]
  · intro b hb h1 h0
    have hn1 : (make_nsis_request .timeout).count markOk = 0 := by decide
    have hn2 : (make_nsis_request .timeout).count markFail = 1 := by decide
    have he1 : (make_eaisto_request .timeout).count markOk = 0 := by decide
    have he2 : (make_eaisto_request .timeout).count markFail = 1 := by decide
    constructor
    · rw [count_consolidate_marks _ _ _ _ (Or.inl rfl)]
      omega
    · rw [count_consolidate_marks _ _ _ _ (Or.inr rfl)]
      omega
  · intro rg rn re hg hn he
    obtain ⟨hg1, hg0⟩ := gibdd_fail_marks hg
    obtain ⟨hn1, hn0⟩ := nsis_fail_marks hn
    obtain ⟨he1, he0⟩ := eaisto_fail_marks he
    constructor
    · rw [count_consolidate_marks _ _ _ _ (Or.inr rfl)]
      omega
    · rw [count_consolidate_marks _ _ _ _ (Or.inl rfl)]
      omega

/-- C2 witness: one concrete success body and two timeouts yield exactly one
success marker. -/
theorem failure_isolation_witness :
    (consolidate (make_gibdd_request (.ok (some ⟨true, none, none⟩)))
      (make_nsis_request .timeout)
      (make_eaisto_request .timeout)).count markOk = 1 :=
  (failure_isolation.2.1 ⟨true, none, none⟩ rfl (by decide) (by decide)).1

/-- C8 counterexample: in the insurance and inspection clients a connection
failure produces the generic request-error message, identical to the one for
any other unexpected exception — not a distinct connection-failure
message. -/
theorem conn_error_not_distinct_cx :
    make_nsis_request .connError = str "❌ **ОСАГО:** Ошибка запроса"
    ∧ make_eaisto_request .connError = str "❌ **Техосмотр:** Ошибка запроса"
    ∧ make_nsis_request .connError = make_nsis_request .otherError
    ∧ make_eaisto_request .connError = make_eaisto_request .otherError := by
  refine ⟨rfl, rfl, rfl, rfl⟩

/-- C8 (amended): only the registration-history client maps a connection
failure to a distinct connection-failure message; the insurance and
inspection clients fold it into the same generic request-error message used
for any other exception. -/
theorem conn_error_distinct_only_in_gibdd :
    make_gibdd_request .connError = str "❌ **ГИБДД:** Ошибка соединения"
    ∧ make_gibdd_request .connError ≠ make_gibdd_request .otherError
    ∧ make_nsis_request .connError = make_nsis_request .otherError
    ∧ make_nsis_request .connError ≠ str "❌ **ОСАГО:** Ошибка соединения"
    ∧ make_eaisto_request .connError = make_eaisto_request .otherError
    ∧ make_eaisto_request .connError ≠ str "❌ **Техосмотр:** Ошибка соединения" := by
  refine ⟨rfl, by decide, rfl, by decide, rfl, by decide⟩

/-- C9: when the insurance provider returns several policies, or the
inspection provider several diagnostic cards, only the first element is
rendered and the rest have no effect on the output block. -/
theorem only_first_record_rendered (p : NsisPolicy)
    (rest rest2 : List NsisPolicy) (err err2 : Option Str) (c : EaistoCard)
    (cs cs2 : List EaistoCard) :
    make_nsis_request (.ok (some ⟨true, p :: rest, err⟩)) =
      renderNsisPolicy p
    ∧ make_nsis_request (.ok (some ⟨true, p :: rest, err⟩)) =
      make_nsis_request (.ok (some ⟨true, p :: rest2, err2⟩))
    ∧ make_eaisto_request (.ok (some ⟨true, c :: cs⟩)) = renderEaistoCard c
    ∧ make_eaisto_request (.ok (some ⟨true, c :: cs⟩)) =
      make_eaisto_request (.ok (some ⟨true, c :: cs2⟩)) := by
  refine ⟨rfl, rfl, rfl, rfl⟩

/-- An environment with the bot token set but the GIBDD API key missing. -/
def envMissingGibdd : Env :=
  ⟨some (str "token123"), none, some (str "key2"), some (str "key3")⟩

/-- An environment with all four credentials set. -/
def envAllSet : Env :=
  ⟨some (str "t"), some (str "g"), some (str "n"), some (str "e")⟩

/-- Whether an `Except` result is a success. -/
def exceptIsOk : Except Str Unit → Bool :=
  fun r => match r with | .ok _ => true | .error _ => false

/-- C6 counterexample: with the GIBDD API key missing the executed startup
check in src/bot.py still succeeds — the process starts — even though the
never-invoked `Config.validate` would have rejected the environment. -/
theorem startup_missing_key_cx :
    bot_startup envMissingGibdd = .ok ()
    ∧ exceptIsOk (config_validate envMissingGibdd) = false := by
  refine ⟨rfl, rfl⟩

/-- C6 (amended): the executed startup check is fatal exactly when the bot
token is missing or empty; the three provider API keys are not checked at
startup (the `Config.validate` helper, which does require all four, is never
called by the program). -/
theorem startup_requires_only_bot_token (e : Env) :
    (bot_startup e = .ok () ↔ truthy e.botToken = true)
    ∧ (config_validate e = .ok () ↔
        (truthy e.botToken = true ∧ truthy e.gibddKey = true ∧
          truthy e.nsisKey = true ∧ truthy e.eaistoKey = true)) := by
  constructor
  · unfold bot_startup
    split
    case isTrue h => simp [h]
    case isFalse h => simp [h]
  · cases h1 : truthy e.botToken <;> cases h2 : truthy e.gibddKey <;>
      cases h3 : truthy e.nsisKey <;> cases h4 : truthy e.eaistoKey <;>
      simp [config_validate, h1, h2, h3, h4, List.filter_cons]

/-- C6 witness: with all four credentials set the startup check passes. -/
theorem startup_requires_only_bot_token_witness :
    bot_startup envAllSet = .ok () :=
  (startup_requires_only_bot_token envAllSet).1.mpr (by decide)

end CheckCar
